import Mathlib

/-!
# Verification of the PortalBox NeoPixel controller firmware

A shallow embedding of `src/firmware.cpp` (Arduino firmware driving an
Adafruit NeoPixel strip from line-oriented serial commands) together with
theorems settling the frozen claims about its specification.

Modelling conventions:
* Serial bytes are `Nat` values (0–255); the input buffer is a `List Char`.
* The LED strip (an external capability per the design) is a pixel list of
  packed 24-bit colors plus a brightness scalar, as the firmware observes it
  through `setPixelColor` / `setBrightness` / `getBrightness` / `show`.
* Side effects (digital pin writes, pixel writes, brightness writes, `show`
  flushes with the snapshot being flushed, `delay`, and serial prints) are
  recorded in an event trace.
* C behaviour that is undefined (`atoi(NULL)` on a missing `strtok` token,
  signed division by zero) is modelled as an `Except` error so the embedding
  is total and the reachability of those branches is provable.
* avr-libc `atoi` arithmetic is 16-bit two's complement; we model the
  wraparound with `wrap16`.
-/

namespace NeoPixelFW

/-- `#define MAX_INPUT_BUFFER_LEN 127` -/
def MAX_INPUT_BUFFER_LEN : Nat := 127

/-- `#define LED_COUNT 15` -/
def LED_COUNT : Nat := 15

/-- `#define DEFAULT_BRIGHTNESS 128` -/
def DEFAULT_BRIGHTNESS : Int := 128

/-- `#define MAX_PULSE_BRIGHTNESS 120` -/
def MAX_PULSE_BRIGHTNESS : Int := 120

/-- `#define MIN_PULSE_BRIGHTNESS 20` -/
def MIN_PULSE_BRIGHTNESS : Int := 20

/-- `#define PULSE_BRIGHTNESS_STEP 5` -/
def PULSE_BRIGHTNESS_STEP : Int := 5

/-- avr-libc `isspace`: space, tab, newline, vertical tab, form feed,
carriage return. -/
def isSpaceByte (c : Char) : Bool :=
  c = ' ' || c = '\t' || c = '\n' || c = '\r' || c = '\x0b' || c = '\x0c'

/-- ASCII decimal digit test. -/
def isDigitB (c : Char) : Bool :=
  '0' ≤ c && c ≤ '9'

/-- Numeric value of an ASCII digit. -/
def digitVal (c : Char) : Nat :=
  c.toNat - 48

/-- Accumulate leading decimal digits (stopping at the first non-digit),
as `atoi` does after sign handling. -/
def atoiDigits : List Char → Nat → Nat
  | [], acc => acc
  | c :: rest, acc =>
      if isDigitB c then atoiDigits rest (10 * acc + digitVal c) else acc

/-- Skip leading `isspace` characters, as `atoi` does. -/
def skipSpaces : List Char → List Char
  | [] => []
  | c :: rest => if isSpaceByte c then skipSpaces rest else c :: rest

/-- Reduce to the 16-bit two's-complement representative in
`[-32768, 32767]` (the AVR `int` is 16 bits wide). -/
def wrap16 (n : Int) : Int :=
  (n + 32768) % 65536 - 32768

/-- avr-libc `atoi`: skip whitespace, read an optional single sign, then
leading decimal digits (`0` when there are none, e.g. on a token of
letters); arithmetic wraps at 16 bits. -/
def atoi (cs : List Char) : Int :=
  match skipSpaces cs with
  | [] => 0
  | c :: rest =>
      if c = '-' then wrap16 (-(atoiDigits rest 0 : Int))
      else if c = '+' then wrap16 ((atoiDigits rest 0 : Int))
      else wrap16 ((atoiDigits (c :: rest) 0 : Int))

/-- Worker for `splitTokens`; `cur` holds the current token reversed. -/
def splitAux : List Char → List Char → List (List Char)
  | [], cur => if cur = [] then [] else [cur.reverse]
  | c :: rest, cur =>
      if c = ' ' then
        if cur = [] then splitAux rest [] else cur.reverse :: splitAux rest []
      else
        splitAux rest (c :: cur)

/-- The token sequence successive `strtok(_, " ")` calls yield on the
buffer: maximal runs of non-space characters, empty runs skipped. -/
def splitTokens (cs : List Char) : List (List Char) :=
  splitAux cs []

/-- `strip.Color(r, g, b)`: pack three 8-bit channels into one value
(validated call sites pass 0–255, so the reductions are exact there). -/
def Color (r g b : Int) : Nat :=
  r.toNat % 256 * 65536 + g.toNat % 256 * 256 + b.toNat % 256

/-- The LED strip as the firmware observes it through the driver
capability: pixel colors plus the global brightness scalar. -/
structure Strip where
  pixels : List Nat
  brightness : Int
deriving DecidableEq

/-- The firmware's global mutable state relevant to `process_command` and
the pulse animator: the strip, `is_pulsing`, `pulse_rising`, and the level
of the builtin LED pin (`true` = HIGH = idle). -/
structure FW where
  strip : Strip
  is_pulsing : Bool
  pulse_rising : Bool
  led_builtin : Bool
deriving DecidableEq

/-- Observable side effects, in program order. `showStrip` records the
snapshot (pixels, brightness) flushed to the hardware; `interpret` records
an invocation of the command interpreter with the completed line. -/
inductive Event where
  | digitalWrite (high : Bool)
  | interpret (line : List Char)
  | setPixel (i : Nat) (c : Nat)
  | setBrightness (b : Int)
  | showStrip (pixels : List Nat) (brightness : Int)
  | delayMs (ms : Int)
  | printNum (n : Int)
  | printMsg (msg : List Char)
deriving DecidableEq

/-- Undefined C behaviour reached by the firmware, made explicit so the
embedding is total: `atoi`/`strcmp` applied to a NULL `strtok` result, or
the signed division `duration / (2 * repeats)` with a zero divisor. -/
inductive CErr where
  | nullToken
  | divByZero
deriving DecidableEq

/-- One pulse-animator step on (brightness, `pulse_rising`), exactly the
`is_pulsing` block in `loop`: move by `PULSE_BRIGHTNESS_STEP`, clamp to the
bound and flip direction when the moved value leaves the bound. -/
def pulseStep (b : Int) (rising : Bool) : Int × Bool :=
  if rising then
    let b2 := b + PULSE_BRIGHTNESS_STEP
    if MAX_PULSE_BRIGHTNESS < b2 then (MAX_PULSE_BRIGHTNESS, false)
    else (b2, true)
  else
    let b2 := b - PULSE_BRIGHTNESS_STEP
    if b2 < MIN_PULSE_BRIGHTNESS then (MIN_PULSE_BRIGHTNESS, true)
    else (b2, false)

/-- Iterate `pulseStep`. -/
def pulseIterate : Nat → Int × Bool → Int × Bool
  | 0, s => s
  | n + 1, s => pulseIterate n (pulseStep s.1 s.2)

/-- Fetch argument `i` as successive `strtok(NULL, " ")` + `atoi` calls do:
a missing token is `strtok` returning NULL, and `atoi(NULL)` is undefined
behaviour, surfaced as `CErr.nullToken`. -/
def getArg (ts : List (List Char)) (i : Nat) : Except CErr Int :=
  match ts.get? i with
  | none => Except.error CErr.nullToken
  | some t => Except.ok (atoi t)

/-- Pixel-state effect of `for(j = 0; j < LED_COUNT; j++) setPixelColor(j, c)`. -/
def setAllPixels (px : List Nat) (c : Nat) : List Nat :=
  (List.range LED_COUNT).foldl (fun p j => p.set j c) px

/-- Event trace of that same per-pixel loop. -/
def setAllEvents (c : Nat) : List Event :=
  (List.range LED_COUNT).map (fun j => Event.setPixel j c)

/-- The `blink` repeat loop: each iteration paints the strip black, shows,
waits, paints it the command color, shows, waits. Returns the final pixel
state and the trace. -/
def blinkLoop (px : List Nat) (color black : Nat) (wait bright : Int) :
    Nat → List Nat × List Event
  | 0 => (px, [])
  | n + 1 =>
      let p1 := setAllPixels px black
      let p2 := setAllPixels p1 color
      let pr := blinkLoop p2 color black wait bright n
      (pr.1,
        setAllEvents black ++ [Event.showStrip p1 bright, Event.delayMs wait] ++
        setAllEvents color ++ [Event.showStrip p2 bright, Event.delayMs wait] ++ pr.2)

/-- The `wipe` loop over pixel indices: set pixel `i`, show, wait. -/
def wipeLoop (c : Nat) (wait bright : Int) :
    List Nat → List Nat → List Nat × List Event
  | px, [] => (px, [])
  | px, i :: rest =>
      let p1 := px.set i c
      let pr := wipeLoop c wait bright p1 rest
      (pr.1, [Event.setPixel i c, Event.showStrip p1 bright, Event.delayMs wait] ++ pr.2)

/-- `process_command` on the token sequence `strtok` produces from the
line. Mirrors the C control flow: builtin LED driven LOW, the first token
selects the command, each argument is fetched then range-checked with an
early `Serial.println(1); return` on failure, the effect runs after
`is_pulsing = false; setBrightness(DEFAULT_BRIGHTNESS)`, and the shared
exit drives the LED HIGH and prints `errno`. In the blink arm the product
`2 * repeats` is a 16-bit `int` multiplication on the AVR target, so it
wraps (`wrap16`) before the division; the division itself truncates
toward zero, which for the validated non-negative dividend coincides with
Lean's `Int` division. A wrapped divisor of 0 (only `repeats = 0`
after validation) is the division-by-zero error. -/
def dispatch (ts : List (List Char)) (fw : FW) : Except CErr (FW × List Event) :=
  let fw0 : FW := { fw with led_builtin := false }
  let ev0 : List Event := [Event.digitalWrite false]
  match ts.get? 0 with
  | none => Except.error CErr.nullToken
  | some cmd =>
    if cmd = "blink".data then
      match getArg ts 1 with
      | Except.error e => Except.error e
      | Except.ok red =>
      if red < 0 ∨ 255 < red then Except.ok (fw0, ev0 ++ [Event.printNum 1]) else
      match getArg ts 2 with
      | Except.error e => Except.error e
      | Except.ok green =>
      if green < 0 ∨ 255 < green then Except.ok (fw0, ev0 ++ [Event.printNum 1]) else
      match getArg ts 3 with
      | Except.error e => Except.error e
      | Except.ok blue =>
      if blue < 0 ∨ 255 < blue then Except.ok (fw0, ev0 ++ [Event.printNum 1]) else
      match getArg ts 4 with
      | Except.error e => Except.error e
      | Except.ok duration =>
      if duration < 0 then Except.ok (fw0, ev0 ++ [Event.printNum 1]) else
      match getArg ts 5 with
      | Except.error e => Except.error e
      | Except.ok repeats =>
      if repeats < 0 then Except.ok (fw0, ev0 ++ [Event.printNum 1]) else
      if wrap16 (2 * repeats) = 0 then Except.error CErr.divByZero else
      let wait := duration / wrap16 (2 * repeats)
      let color := Color red green blue
      let black := Color 0 0 0
      let pr := blinkLoop fw0.strip.pixels color black wait
        DEFAULT_BRIGHTNESS repeats.toNat
      let px3 := setAllPixels pr.1 black
      Except.ok
        ({ fw0 with
            is_pulsing := false,
            led_builtin := true,
            strip := { pixels := px3, brightness := DEFAULT_BRIGHTNESS } },
         ev0 ++ [Event.setBrightness DEFAULT_BRIGHTNESS] ++ pr.2 ++
           setAllEvents black ++
           [Event.showStrip px3 DEFAULT_BRIGHTNESS,
            Event.digitalWrite true, Event.printNum 0])
    else if cmd = "wipe".data then
      match getArg ts 1 with
      | Except.error e => Except.error e
      | Except.ok red =>
      if red < 0 ∨ 255 < red then Except.ok (fw0, ev0 ++ [Event.printNum 1]) else
      match getArg ts 2 with
      | Except.error e => Except.error e
      | Except.ok green =>
      if green < 0 ∨ 255 < green then Except.ok (fw0, ev0 ++ [Event.printNum 1]) else
      match getArg ts 3 with
      | Except.error e => Except.error e
      | Except.ok blue =>
      if blue < 0 ∨ 255 < blue then Except.ok (fw0, ev0 ++ [Event.printNum 1]) else
      match getArg ts 4 with
      | Except.error e => Except.error e
      | Except.ok duration =>
      if duration < 0 then Except.ok (fw0, ev0 ++ [Event.printNum 1]) else
      let color := Color red green blue
      let wait := duration / (LED_COUNT : Int)
      let pr := wipeLoop color wait DEFAULT_BRIGHTNESS
        fw0.strip.pixels (List.range LED_COUNT)
      Except.ok
        ({ fw0 with
            is_pulsing := false,
            led_builtin := true,
            strip := { pixels := pr.1, brightness := DEFAULT_BRIGHTNESS } },
         ev0 ++ [Event.setBrightness DEFAULT_BRIGHTNESS] ++ pr.2 ++
           [Event.digitalWrite true, Event.printNum 0])
    else if cmd = "color".data then
      match getArg ts 1 with
      | Except.error e => Except.error e
      | Except.ok red =>
      if red < 0 ∨ 255 < red then Except.ok (fw0, ev0 ++ [Event.printNum 1]) else
      match getArg ts 2 with
      | Except.error e => Except.error e
      | Except.ok green =>
      if green < 0 ∨ 255 < green then Except.ok (fw0, ev0 ++ [Event.printNum 1]) else
      match getArg ts 3 with
      | Except.error e => Except.error e
      | Except.ok blue =>
      if blue < 0 ∨ 255 < blue then Except.ok (fw0, ev0 ++ [Event.printNum 1]) else
      let color := Color red green blue
      let px1 := setAllPixels fw0.strip.pixels color
      Except.ok
        ({ fw0 with
            is_pulsing := false,
            led_builtin := true,
            strip := { pixels := px1, brightness := DEFAULT_BRIGHTNESS } },
         ev0 ++ [Event.setBrightness DEFAULT_BRIGHTNESS] ++ setAllEvents color ++
           [Event.showStrip px1 DEFAULT_BRIGHTNESS,
            Event.digitalWrite true, Event.printNum 0])
    else if cmd = "pulse".data then
      Except.ok
        ({ fw0 with is_pulsing := true, led_builtin := true },
         ev0 ++ [Event.digitalWrite true, Event.printNum 0])
    else
      Except.ok
        ({ fw0 with led_builtin := true },
         ev0 ++ [Event.digitalWrite true, Event.printNum 1])

/-- `process_command(char *command)`: tokenize the completed line and
dispatch it. -/
def process_command (line : List Char) (fw : FW) : Except CErr (FW × List Event) :=
  dispatch (splitTokens line) fw

/-- The serial-facing state: firmware globals plus the input buffer
(`input_buffer` together with `len_input_buffer_data`). -/
structure Sys where
  fw : FW
  buffer : List Char
deriving DecidableEq

/-- One byte through the `loop` drain `switch`: 0 is discarded; CR/LF
processes the buffer when non-empty (then flushes); any other byte is
appended, and reaching `MAX_INPUT_BUFFER_LEN` prints the overflow
diagnostic and flushes. -/
def feedByte (s : Sys) (b : Nat) : Except CErr (Sys × List Event) :=
  if b = 0 then Except.ok (s, [])
  else if b = 13 ∨ b = 10 then
    if 0 < s.buffer.length then
      match process_command s.buffer s.fw with
      | Except.error e => Except.error e
      | Except.ok (fw1, evs) =>
          Except.ok ({ fw := fw1, buffer := [] }, Event.interpret s.buffer :: evs)
    else Except.ok (s, [])
  else
    let buffer1 := s.buffer ++ [Char.ofNat b]
    if MAX_INPUT_BUFFER_LEN ≤ buffer1.length then
      Except.ok ({ s with buffer := [] }, [Event.printMsg "Input too long".data])
    else
      Except.ok ({ s with buffer := buffer1 }, [])

/-- Drain a whole sequence of available serial bytes, accumulating the
trace (the inner `while(-1 != (input = Serial.read()))` loop). -/
def feedBytes (s : Sys) : List Nat → Except CErr (Sys × List Event)
  | [] => Except.ok (s, [])
  | b :: rest =>
      match feedByte s b with
      | Except.error e => Except.error e
      | Except.ok (s1, e1) =>
          match feedBytes s1 rest with
          | Except.error e => Except.error e
          | Except.ok (s2, e2) => Except.ok (s2, e1 ++ e2)

/-- The `if(is_pulsing)` tail of `loop`: read the brightness, step it,
write it back, show, delay 100 ms. -/
def pulsePhase (fw : FW) : FW × List Event :=
  if fw.is_pulsing then
    let (b1, r1) := pulseStep fw.strip.brightness fw.pulse_rising
    ({ fw with strip.brightness := b1, pulse_rising := r1 },
     [Event.setBrightness b1, Event.showStrip fw.strip.pixels b1,
      Event.delayMs 100])
  else (fw, [])

/-- Firmware globals as `setup()` leaves them: all pixels cleared to 0,
brightness at the default, not pulsing, builtin LED HIGH. -/
def initFW : FW :=
  { strip := { pixels := List.replicate LED_COUNT 0, brightness := DEFAULT_BRIGHTNESS },
    is_pulsing := false, pulse_rising := false, led_builtin := true }

/-- System state after `setup()`: clean firmware state, empty buffer. -/
def initSys : Sys :=
  { fw := initFW, buffer := [] }

/-- The status codes printed in a trace (`Serial.println(int)`). -/
def statusOf (evs : List Event) : List Int :=
  evs.filterMap (fun e => match e with | Event.printNum n => some n | _ => none)

/-- The pixel snapshots flushed to the hardware in a trace. -/
def showsOf (evs : List Event) : List (List Nat) :=
  evs.filterMap (fun e => match e with | Event.showStrip p _ => some p | _ => none)

/-- The delays performed in a trace. -/
def delaysOf (evs : List Event) : List Int :=
  evs.filterMap (fun e => match e with | Event.delayMs m => some m | _ => none)

/-- Does an event touch the strip capability (pixel write, brightness
write, or flush)? -/
def isStripEvent : Event → Bool
  | Event.setPixel _ _ => true
  | Event.setBrightness _ => true
  | Event.showStrip _ _ => true
  | _ => false

/-- The trace prefix before the first pixel write. -/
def beforeFirstPixel (evs : List Event) : List Event :=
  evs.takeWhile (fun e => match e with | Event.setPixel _ _ => false | _ => true)

/-- Serial bytes of an ASCII string. -/
def bytesOf (s : String) : List Nat :=
  s.data.map Char.toNat

/-- The token list of `blink 255 0 -1 10 1` (blue channel invalid). -/
def blinkBadTokens : List (List Char) :=
  ["blink".data, "255".data, "0".data, "-1".data, "10".data, "1".data]

/-- The result `process_command` produces for a validation failure: LED
left LOW, state otherwise untouched, trace = busy write then status 1. -/
def blinkBadResult : FW × List Event :=
  ({ initFW with led_builtin := false },
   [Event.digitalWrite false, Event.printNum 1])

/-- The token list of `color 10 10 10`. -/
def colorTenTokens : List (List Char) :=
  ["color".data, "10".data, "10".data, "10".data]

/-- The firmware state right after a `pulse` command on the fresh state. -/
def pulsedFW : FW :=
  { initFW with is_pulsing := true }

/-- The result of a successful `color` with all channels 0: every pixel
painted `Color 0 0 0`, shown once, status 0. -/
def colorZeroResult : FW × List Event :=
  ({ strip := { pixels := List.replicate LED_COUNT (Color 0 0 0),
                brightness := DEFAULT_BRIGHTNESS },
     is_pulsing := false, pulse_rising := false, led_builtin := true },
   [Event.digitalWrite false, Event.setBrightness DEFAULT_BRIGHTNESS] ++
     setAllEvents (Color 0 0 0) ++
     [Event.showStrip (List.replicate LED_COUNT (Color 0 0 0))
        DEFAULT_BRIGHTNESS,
      Event.digitalWrite true, Event.printNum 0])

/-- The result of `pulse` on the fresh state: flag set, two indicator
writes, status 0. -/
def pulseOkResult : FW × List Event :=
  ({ initFW with is_pulsing := true },
   [Event.digitalWrite false, Event.digitalWrite true, Event.printNum 0])

/-- The success-branch result of `blink` in `dispatch`, as a function of
the starting pixels, the prior direction flag, the parsed color channels,
the computed half-cycle wait and the repeat count: the repeat loop runs,
the strip ends black shown, status 0. -/
def blinkOkResult (px : List Nat) (pr : Bool) (r g b wait n : Int) :
    FW × List Event :=
  let loopRes := blinkLoop px (Color r g b) (Color 0 0 0) wait
    DEFAULT_BRIGHTNESS n.toNat
  let px3 := setAllPixels loopRes.1 (Color 0 0 0)
  ({ strip := { pixels := px3, brightness := DEFAULT_BRIGHTNESS },
     is_pulsing := false, pulse_rising := pr, led_builtin := true },
   [Event.digitalWrite false, Event.setBrightness DEFAULT_BRIGHTNESS] ++
     loopRes.2 ++ setAllEvents (Color 0 0 0) ++
     [Event.showStrip px3 DEFAULT_BRIGHTNESS,
      Event.digitalWrite true, Event.printNum 0])

/-- The token list of `blink 255 0 0 1000 2`. -/
def blinkDemoTokens : List (List Char) :=
  ["blink".data, "255".data, "0".data, "0".data, "1000".data, "2".data]

/-- The result of `blink 255 0 0 1000 2` on the fresh state: two
black/red cycles with 250 ms half-cycles, final black show, status 0. -/
def blinkDemoResult : FW × List Event :=
  ({ strip := { pixels := List.replicate LED_COUNT 0,
                brightness := DEFAULT_BRIGHTNESS },
     is_pulsing := false, pulse_rising := false, led_builtin := true },
   [Event.digitalWrite false, Event.setBrightness DEFAULT_BRIGHTNESS] ++
     (blinkLoop (List.replicate LED_COUNT 0) (Color 255 0 0) 0 250
        DEFAULT_BRIGHTNESS 2).2 ++
     setAllEvents 0 ++
     [Event.showStrip (List.replicate LED_COUNT 0) DEFAULT_BRIGHTNESS,
      Event.digitalWrite true, Event.printNum 0])

/-- The result of `color 10 10 10` on `pulsedFW`. -/
def colorTenResult : FW × List Event :=
  ({ strip := { pixels := List.replicate LED_COUNT (Color 10 10 10),
                brightness := DEFAULT_BRIGHTNESS },
     is_pulsing := false, pulse_rising := false, led_builtin := true },
   [Event.digitalWrite false, Event.setBrightness DEFAULT_BRIGHTNESS] ++
     setAllEvents (Color 10 10 10) ++
     [Event.showStrip (List.replicate LED_COUNT (Color 10 10 10))
        DEFAULT_BRIGHTNESS,
      Event.digitalWrite true, Event.printNum 0])

instance {ε : Type u} {α : Type v} [DecidableEq ε] [DecidableEq α] :
    DecidableEq (Except ε α) := fun a b =>
  match a, b with
  | Except.ok x, Except.ok y =>
      match decEq x y with
      | isTrue h => isTrue (congrArg Except.ok h)
      | isFalse h => isFalse (fun hc => h (Except.ok.inj hc))
  | Except.ok _, Except.error _ => isFalse (fun hc => Except.noConfusion hc)
  | Except.error _, Except.ok _ => isFalse (fun hc => Except.noConfusion hc)
  | Except.error e, Except.error f =>
      match decEq e f with
      | isTrue h => isTrue (congrArg Except.error h)
      | isFalse h => isFalse (fun hc => h (Except.error.inj hc))

/-! ### List helper lemmas -/

theorem set_at_append_length (l m : List Nat) (a : Nat) :
    (l ++ m).set l.length a = l ++ m.set 0 a := by
  induction l with
  | nil => simp
  | cons x xs ih => simp [ih]

theorem foldl_set_replicate (c : Nat) :
    ∀ (n : Nat) (px : List Nat), n ≤ px.length →
      (List.range n).foldl (fun p j => p.set j c) px =
        List.replicate n c ++ px.drop n := by
  intro n
  induction n with
  | zero => intro px _; simp
  | succ k ih =>
      intro px h
      rw [List.range_succ, List.foldl_append, ih px (by omega)]
      simp only [List.foldl_cons, List.foldl_nil]
      have hk : k < px.length := by omega
      have h1 : (List.replicate k c ++ px.drop k).set k c =
          List.replicate k c ++ (px.drop k).set 0 c := by
        have h := set_at_append_length (List.replicate k c) (px.drop k) c
        rw [List.length_replicate] at h
        exact h
      have h2 : (px.drop k).set 0 c = c :: px.drop (k + 1) := by
        rw [List.drop_eq_getElem_cons hk]
        rfl
      rw [h1, h2, List.replicate_succ' k c]
      simp [List.append_assoc]

theorem setAllPixels_replicate (px : List Nat) (c : Nat) (h : px.length = LED_COUNT) :
    setAllPixels px c = List.replicate LED_COUNT c := by
  unfold setAllPixels
  rw [foldl_set_replicate c LED_COUNT px (by omega)]
  have : px.drop LED_COUNT = [] := by
    rw [← h]
    exact List.drop_length px
  simp [this]

theorem length_foldl_set (c : Nat) (l : List Nat) :
    ∀ px : List Nat, (l.foldl (fun p j => p.set j c) px).length = px.length := by
  induction l with
  | nil => intro px; rfl
  | cons x xs ih => intro px; simpa using ih (px.set x c)

theorem length_setAllPixels (px : List Nat) (c : Nat) :
    (setAllPixels px c).length = px.length :=
  length_foldl_set c (List.range LED_COUNT) px

/-! ### Trace helper lemmas -/

theorem statusOf_append (a b : List Event) :
    statusOf (a ++ b) = statusOf a ++ statusOf b :=
  List.filterMap_append a b _

theorem showsOf_append (a b : List Event) :
    showsOf (a ++ b) = showsOf a ++ showsOf b :=
  List.filterMap_append a b _

theorem delaysOf_append (a b : List Event) :
    delaysOf (a ++ b) = delaysOf a ++ delaysOf b :=
  List.filterMap_append a b _

theorem statusOf_setAllEvents (c : Nat) : statusOf (setAllEvents c) = [] := by
  simp [statusOf, setAllEvents, List.filterMap_map, Function.comp]

theorem showsOf_setAllEvents (c : Nat) : showsOf (setAllEvents c) = [] := by
  simp [showsOf, setAllEvents, List.filterMap_map, Function.comp]

theorem delaysOf_setAllEvents (c : Nat) : delaysOf (setAllEvents c) = [] := by
  simp [delaysOf, setAllEvents, List.filterMap_map, Function.comp]

theorem statusOf_showDelay (p : List Nat) (br w : Int) :
    statusOf [Event.showStrip p br, Event.delayMs w] = [] := rfl

theorem showsOf_showDelay (p : List Nat) (br w : Int) :
    showsOf [Event.showStrip p br, Event.delayMs w] = [p] := rfl

theorem delaysOf_showDelay (p : List Nat) (br w : Int) :
    delaysOf [Event.showStrip p br, Event.delayMs w] = [w] := rfl

theorem statusOf_wipeCell (i c : Nat) (p : List Nat) (br w : Int) :
    statusOf [Event.setPixel i c, Event.showStrip p br, Event.delayMs w] = [] := rfl

theorem delaysOf_busyBright (br : Int) :
    delaysOf [Event.digitalWrite false, Event.setBrightness br] = [] := rfl

theorem delaysOf_tailTriple (p : List Nat) (br s : Int) :
    delaysOf [Event.showStrip p br, Event.digitalWrite true,
      Event.printNum s] = [] := rfl

theorem statusOf_blinkLoop (color black : Nat) (w br : Int) :
    ∀ (n : Nat) (px : List Nat), statusOf (blinkLoop px color black w br n).2 = [] := by
  intro n
  induction n with
  | zero => intro px; rfl
  | succ k ih =>
      intro px
      simp only [blinkLoop, statusOf_append, statusOf_setAllEvents,
        statusOf_showDelay, ih]
      rfl

theorem statusOf_wipeLoop (c : Nat) (w br : Int) :
    ∀ (idx : List Nat) (px : List Nat), statusOf (wipeLoop c w br px idx).2 = [] := by
  intro idx
  induction idx with
  | nil => intro px; rfl
  | cons i rest ih =>
      intro px
      simp only [wipeLoop, statusOf_append, statusOf_wipeCell, ih]
      rfl

theorem delaysOf_blinkLoop (color black : Nat) (w br : Int) :
    ∀ (n : Nat) (px : List Nat),
      delaysOf (blinkLoop px color black w br n).2 = List.replicate (2 * n) w := by
  intro n
  induction n with
  | zero => intro px; rfl
  | succ k ih =>
      intro px
      have h2 : 2 * (k + 1) = (2 * k + 1) + 1 := by omega
      simp only [blinkLoop, delaysOf_append, delaysOf_setAllEvents,
        delaysOf_showDelay, ih]
      rw [h2]
      simp [List.replicate_succ]

theorem showsOf_blinkLoop (color black : Nat) (w br : Int) :
    ∀ (n : Nat) (px : List Nat), px.length = LED_COUNT →
      showsOf (blinkLoop px color black w br n).2 =
        (List.replicate n
          [List.replicate LED_COUNT black, List.replicate LED_COUNT color]).flatten := by
  intro n
  induction n with
  | zero => intro px _; rfl
  | succ k ih =>
      intro px h
      have hb : setAllPixels px black = List.replicate LED_COUNT black :=
        setAllPixels_replicate px black h
      have hc : setAllPixels (List.replicate LED_COUNT black) color =
          List.replicate LED_COUNT color :=
        setAllPixels_replicate _ color (by simp)
      have hrec := ih (List.replicate LED_COUNT color) (by simp)
      simp only [blinkLoop, hb, hc, showsOf_append, showsOf_setAllEvents,
        showsOf_showDelay, hrec]
      simp [List.replicate_succ]

theorem length_blinkLoop_fst (color black : Nat) (w br : Int) :
    ∀ (n : Nat) (px : List Nat), px.length = LED_COUNT →
      (blinkLoop px color black w br n).1.length = LED_COUNT := by
  intro n
  induction n with
  | zero => intro px h; simpa [blinkLoop] using h
  | succ k ih =>
      intro px h
      simp only [blinkLoop]
      exact ih _ (by rw [length_setAllPixels, length_setAllPixels]; exact h)

/-! ### Pulse-animator lemmas -/

theorem pulseStep_bounds (b : Int) (r : Bool)
    (h1 : MIN_PULSE_BRIGHTNESS ≤ b) (h2 : b ≤ MAX_PULSE_BRIGHTNESS) :
    MIN_PULSE_BRIGHTNESS ≤ (pulseStep b r).1 ∧
      (pulseStep b r).1 ≤ MAX_PULSE_BRIGHTNESS := by
  cases r
  · by_cases h : b - PULSE_BRIGHTNESS_STEP < MIN_PULSE_BRIGHTNESS
    · rw [show pulseStep b false = (MIN_PULSE_BRIGHTNESS, true) from by
        simp [pulseStep, h]]
      decide
    · rw [show pulseStep b false = (b - PULSE_BRIGHTNESS_STEP, false) from by
        simp [pulseStep, h]]
      simp only [MIN_PULSE_BRIGHTNESS, MAX_PULSE_BRIGHTNESS,
        PULSE_BRIGHTNESS_STEP] at *
      constructor <;> omega
  · by_cases h : MAX_PULSE_BRIGHTNESS < b + PULSE_BRIGHTNESS_STEP
    · rw [show pulseStep b true = (MAX_PULSE_BRIGHTNESS, false) from by
        simp [pulseStep, h]]
      decide
    · rw [show pulseStep b true = (b + PULSE_BRIGHTNESS_STEP, true) from by
        simp [pulseStep, h]]
      simp only [MIN_PULSE_BRIGHTNESS, MAX_PULSE_BRIGHTNESS,
        PULSE_BRIGHTNESS_STEP] at *
      constructor <;> omega

theorem pulseIterate_bounds :
    ∀ (n : Nat) (b : Int) (r : Bool),
      MIN_PULSE_BRIGHTNESS ≤ b → b ≤ MAX_PULSE_BRIGHTNESS →
      MIN_PULSE_BRIGHTNESS ≤ (pulseIterate n (b, r)).1 ∧
        (pulseIterate n (b, r)).1 ≤ MAX_PULSE_BRIGHTNESS := by
  intro n
  induction n with
  | zero => intro b r h1 h2; exact ⟨h1, h2⟩
  | succ k ih =>
      intro b r h1 h2
      have hb := pulseStep_bounds b r h1 h2
      have hk := ih (pulseStep b r).1 (pulseStep b r).2 hb.1 hb.2
      simpa [pulseIterate] using hk

/-! ### Claim theorems -/

/-- C5: starting at any brightness in `[MIN_PULSE_BRIGHTNESS,
MAX_PULSE_BRIGHTNESS]` with either direction flag, iterating the pulse
animator step keeps the brightness within that interval, and the direction
flag flips exactly in the steps where the moved brightness is clamped to a
boundary: rising flips to falling iff the raw increment exceeds the
maximum (and then the maximum is what is stored), and falling flips to
rising iff the raw decrement goes below the minimum (and then the minimum
is what is stored). -/
theorem pulse_invariant_and_flip (b : Int) (r : Bool)
    (h1 : MIN_PULSE_BRIGHTNESS ≤ b) (h2 : b ≤ MAX_PULSE_BRIGHTNESS) :
    (∀ n : Nat, MIN_PULSE_BRIGHTNESS ≤ (pulseIterate n (b, r)).1 ∧
        (pulseIterate n (b, r)).1 ≤ MAX_PULSE_BRIGHTNESS) ∧
    ((pulseStep b true).2 = false ↔
      MAX_PULSE_BRIGHTNESS < b + PULSE_BRIGHTNESS_STEP) ∧
    (MAX_PULSE_BRIGHTNESS < b + PULSE_BRIGHTNESS_STEP →
      (pulseStep b true).1 = MAX_PULSE_BRIGHTNESS) ∧
    ((pulseStep b false).2 = true ↔
      b - PULSE_BRIGHTNESS_STEP < MIN_PULSE_BRIGHTNESS) ∧
    (b - PULSE_BRIGHTNESS_STEP < MIN_PULSE_BRIGHTNESS →
      (pulseStep b false).1 = MIN_PULSE_BRIGHTNESS) := by
  refine ⟨fun n => pulseIterate_bounds n b r h1 h2, ?_, ?_, ?_, ?_⟩
  · by_cases h : MAX_PULSE_BRIGHTNESS < b + PULSE_BRIGHTNESS_STEP <;>
      simp [pulseStep, h]
  · intro h; simp [pulseStep, h]
  · by_cases h : b - PULSE_BRIGHTNESS_STEP < MIN_PULSE_BRIGHTNESS <;>
      simp [pulseStep, h]
  · intro h; simp [pulseStep, h]

/-- C5 witness at brightness 117, rising: the step is clamped to the
maximum and the direction flips. -/
theorem pulse_invariant_and_flip_witness :
    (MIN_PULSE_BRIGHTNESS ≤ (117 : Int) ∧ (117 : Int) ≤ MAX_PULSE_BRIGHTNESS) ∧
    ((pulseStep 117 true).2 = false ↔
      MAX_PULSE_BRIGHTNESS < (117 : Int) + PULSE_BRIGHTNESS_STEP) :=
  ⟨⟨by decide, by decide⟩,
    (pulse_invariant_and_flip 117 true (by decide) (by decide)).2.1⟩

/-- C7: `blink 0 0 0 1000 0` passes every argument check (0 is a
non-negative repeat count) and then reaches the unguarded division
`duration / (2 * repeats)` with divisor `2 * 0 = 0`: in the total
embedding the division-by-zero error branch is reached, from
`process_command` and from the public serial interface alike. -/
theorem blink_zero_repeats_divzero :
    process_command "blink 0 0 0 1000 0".data initFW = Except.error CErr.divByZero ∧
    feedBytes initSys (bytesOf "blink 0 0 0 1000 0\r\n") =
      Except.error CErr.divByZero :=
  ⟨by decide, by decide⟩

/-- C9: a recognized command with fewer tokens than its arity makes
`strtok` return NULL for the first missing argument and feeds that NULL
token to `atoi`: in the total embedding the null-token branch is reached,
also from the public serial interface (the line "blink" alone). -/
theorem missing_argument_null_token (fw : FW) :
    dispatch ["blink".data] fw = Except.error CErr.nullToken ∧
    dispatch ["wipe".data] fw = Except.error CErr.nullToken ∧
    dispatch ["color".data] fw = Except.error CErr.nullToken ∧
    feedBytes initSys (bytesOf "blink\r\n") = Except.error CErr.nullToken :=
  ⟨rfl, rfl, rfl, by decide⟩

/-- C10: the `pulse` command only sets the pulsing flag (brightness and
pixels untouched); starting an animator step from the default brightness
128 with the direction flag falling decreases by the fixed step to 123 and
shows that value, with no clamping although 123 exceeds
`MAX_PULSE_BRIGHTNESS`. -/
theorem pulse_no_brightness_reset (fw : FW)
    (hb : fw.strip.brightness = DEFAULT_BRIGHTNESS)
    (hr : fw.pulse_rising = false) (hp : fw.is_pulsing = true) :
    (∀ g : FW, dispatch ["pulse".data] g =
        Except.ok ({ g with is_pulsing := true, led_builtin := true },
          [Event.digitalWrite false, Event.digitalWrite true, Event.printNum 0])) ∧
    (pulsePhase fw).1.strip.brightness = DEFAULT_BRIGHTNESS - PULSE_BRIGHTNESS_STEP ∧
    (pulsePhase fw).1.pulse_rising = false ∧
    MAX_PULSE_BRIGHTNESS < DEFAULT_BRIGHTNESS - PULSE_BRIGHTNESS_STEP ∧
    (pulsePhase fw).2 =
      [Event.setBrightness (DEFAULT_BRIGHTNESS - PULSE_BRIGHTNESS_STEP),
       Event.showStrip fw.strip.pixels (DEFAULT_BRIGHTNESS - PULSE_BRIGHTNESS_STEP),
       Event.delayMs 100] := by
  have hstep : pulseStep fw.strip.brightness fw.pulse_rising =
      (DEFAULT_BRIGHTNESS - PULSE_BRIGHTNESS_STEP, false) := by
    rw [hb, hr]
    decide
  refine ⟨fun g => rfl, ?_, ?_, by decide, ?_⟩ <;>
    simp [pulsePhase, hp, hstep]

/-- C10 witness: the pulsing state left by `pulse` right after a command
that reset brightness to the default. -/
theorem pulse_no_brightness_reset_witness :
    ({ initFW with is_pulsing := true } : FW).strip.brightness = DEFAULT_BRIGHTNESS ∧
    (pulsePhase { initFW with is_pulsing := true }).1.strip.brightness =
      DEFAULT_BRIGHTNESS - PULSE_BRIGHTNESS_STEP ∧
    MAX_PULSE_BRIGHTNESS < DEFAULT_BRIGHTNESS - PULSE_BRIGHTNESS_STEP := by
  have h := pulse_no_brightness_reset { initFW with is_pulsing := true }
    (by decide) (by decide) (by decide)
  exact ⟨by decide, h.2.1, h.2.2.2.1⟩

/-- C1 counterexample: on `color x 0 0` the unparseable token `x` is
converted by `atoi` to 0, which passes the range check, so the command
executes (17 strip effects: one brightness write, 15 pixel writes, one
show) and reports status 0 — not status 1 with no side effect as the
claim states. -/
theorem nonnumeric_token_cex :
    (process_command "color x 0 0".data initFW).toOption.map
        (fun res => (statusOf res.2, (res.2.filter isStripEvent).length)) =
      some ([0], 17) := by decide

set_option maxHeartbeats 2000000 in
/-- C3: for the recognized commands blink, wipe and color, a line whose
processing reports status 1 (the validation-failure status) leaves the
strip, the pulsing flag and the direction flag unchanged and performs no
strip operation at all (no pixel write, no brightness write, no show). -/
theorem invalid_argument_state_unchanged (ts : List (List Char)) (fw : FW)
    (r : FW × List Event)
    (hcmd : ts.get? 0 = some "blink".data ∨ ts.get? 0 = some "wipe".data ∨
      ts.get? 0 = some "color".data)
    (hok : dispatch ts fw = Except.ok r)
    (hstatus : statusOf r.2 = [1]) :
    r.1.strip = fw.strip ∧ r.1.is_pulsing = fw.is_pulsing ∧
      r.1.pulse_rising = fw.pulse_rising ∧ r.2.filter isStripEvent = [] := by
  rcases hcmd with h0 | h0 | h0
  · unfold dispatch at hok
    simp only [h0, getArg] at hok
    rw [if_pos (by trivial)] at hok
    repeat' split at hok
    all_goals try exact Except.noConfusion hok
    all_goals injection hok with hv
    all_goals subst hv
    all_goals
      simp only [statusOf_append, statusOf_blinkLoop, statusOf_wipeLoop,
        statusOf_setAllEvents, statusOf_showDelay] at hstatus
    all_goals simp [statusOf] at hstatus
    all_goals exact ⟨rfl, rfl, rfl, rfl⟩
  · unfold dispatch at hok
    simp only [h0, getArg] at hok
    rw [if_neg (by decide)] at hok
    rw [if_pos (by trivial)] at hok
    repeat' split at hok
    all_goals try exact Except.noConfusion hok
    all_goals injection hok with hv
    all_goals subst hv
    all_goals
      simp only [statusOf_append, statusOf_blinkLoop, statusOf_wipeLoop,
        statusOf_setAllEvents, statusOf_showDelay] at hstatus
    all_goals simp [statusOf] at hstatus
    all_goals exact ⟨rfl, rfl, rfl, rfl⟩
  · unfold dispatch at hok
    simp only [h0, getArg] at hok
    rw [if_neg (by decide)] at hok
    rw [if_neg (by decide)] at hok
    rw [if_pos (by trivial)] at hok
    repeat' split at hok
    all_goals try exact Except.noConfusion hok
    all_goals injection hok with hv
    all_goals subst hv
    all_goals
      simp only [statusOf_append, statusOf_blinkLoop, statusOf_wipeLoop,
        statusOf_setAllEvents, statusOf_showDelay] at hstatus
    all_goals simp [statusOf] at hstatus
    all_goals exact ⟨rfl, rfl, rfl, rfl⟩

/-- C3 witness: `blink 255 0 -1 10 1` fails validation on the blue
channel and leaves the fresh firmware state untouched. -/
theorem invalid_argument_state_unchanged_witness :
    dispatch blinkBadTokens initFW = Except.ok blinkBadResult ∧
    blinkBadResult.1.strip = initFW.strip ∧
    blinkBadResult.1.is_pulsing = initFW.is_pulsing ∧
    blinkBadResult.2.filter isStripEvent = [] := by
  have hok : dispatch blinkBadTokens initFW = Except.ok blinkBadResult := by decide
  have h := invalid_argument_state_unchanged blinkBadTokens initFW blinkBadResult
    (Or.inl (by decide)) hok (by decide)
  exact ⟨hok, h.1, h.2.1, h.2.2.2⟩

set_option maxHeartbeats 2000000 in
/-- C4: whenever one of the effect commands blink, wipe or color succeeds
(status 0), the resulting state has pulsing disabled and brightness at the
fixed default, and the trace shows the brightness reset as the very first
strip operation — before any pixel write (the first two events are the
busy LED write and the brightness reset). -/
theorem command_resets_pulsing_and_brightness (ts : List (List Char)) (fw : FW)
    (r : FW × List Event)
    (hcmd : ts.get? 0 = some "blink".data ∨ ts.get? 0 = some "wipe".data ∨
      ts.get? 0 = some "color".data)
    (hok : dispatch ts fw = Except.ok r)
    (hstatus : statusOf r.2 = [0]) :
    r.1.is_pulsing = false ∧ r.1.strip.brightness = DEFAULT_BRIGHTNESS ∧
      r.2.take 2 = [Event.digitalWrite false,
        Event.setBrightness DEFAULT_BRIGHTNESS] := by
  rcases hcmd with h0 | h0 | h0
  · unfold dispatch at hok
    simp only [h0, getArg] at hok
    rw [if_pos (by trivial)] at hok
    repeat' split at hok
    all_goals try exact Except.noConfusion hok
    all_goals injection hok with hv
    all_goals subst hv
    all_goals simp [statusOf] at hstatus
    all_goals exact ⟨rfl, rfl, rfl⟩
  · unfold dispatch at hok
    simp only [h0, getArg] at hok
    rw [if_neg (by decide)] at hok
    rw [if_pos (by trivial)] at hok
    repeat' split at hok
    all_goals try exact Except.noConfusion hok
    all_goals injection hok with hv
    all_goals subst hv
    all_goals simp [statusOf] at hstatus
    all_goals exact ⟨rfl, rfl, rfl⟩
  · unfold dispatch at hok
    simp only [h0, getArg] at hok
    rw [if_neg (by decide)] at hok
    rw [if_neg (by decide)] at hok
    rw [if_pos (by trivial)] at hok
    repeat' split at hok
    all_goals try exact Except.noConfusion hok
    all_goals injection hok with hv
    all_goals subst hv
    all_goals simp [statusOf] at hstatus
    all_goals exact ⟨rfl, rfl, rfl⟩

/-- C4 witness: `pulse` (which turns pulsing on) followed immediately by a
valid `color 10 10 10` leaves pulsing off, brightness at the default, and
the reset precedes every pixel write. -/
theorem command_resets_pulsing_and_brightness_witness :
    pulsedFW.is_pulsing = true ∧
    dispatch colorTenTokens pulsedFW = Except.ok colorTenResult ∧
    colorTenResult.1.is_pulsing = false ∧
    colorTenResult.1.strip.brightness = DEFAULT_BRIGHTNESS ∧
    colorTenResult.2.take 2 =
      [Event.digitalWrite false, Event.setBrightness DEFAULT_BRIGHTNESS] := by
  have hok : dispatch colorTenTokens pulsedFW = Except.ok colorTenResult := by
    decide
  have h := command_resets_pulsing_and_brightness colorTenTokens pulsedFW
    colorTenResult (Or.inr (Or.inr (by decide))) hok (by decide)
  exact ⟨by decide, hok, h.1, h.2.1, h.2.2⟩

theorem append_triple_split (l : List Event) (a b c : Event) :
    l ++ [a, b, c] = (l ++ [a]) ++ [b, c] := by
  simp

/-- C1 amended: a token that fails to parse as a number is converted by
avr-libc `atoi` to the value 0, which *passes* the color/duration range
checks; such a command therefore executes normally with 0 in that
position and reports status 0. Parsing failure is *not* reported as
status 1; only tokens whose parsed numeric value is out of range are.
Here: any token starting with a non-space, non-sign, non-digit character
parses to 0, and `color <token> 0 0` paints the strip black with
status 0. -/
theorem nonnumeric_token_parses_zero (c : Char) (t : List Char) (fw : FW)
    (hs : isSpaceByte c = false) (hd : isDigitB c = false)
    (hm : c ≠ '-') (hp : c ≠ '+')
    (hlen : fw.strip.pixels.length = LED_COUNT) :
    atoi (c :: t) = 0 ∧
    dispatch ["color".data, c :: t, "0".data, "0".data] fw =
      Except.ok
        ({ strip := { pixels := List.replicate LED_COUNT (Color 0 0 0),
                      brightness := DEFAULT_BRIGHTNESS },
           is_pulsing := false, pulse_rising := fw.pulse_rising,
           led_builtin := true },
         [Event.digitalWrite false, Event.setBrightness DEFAULT_BRIGHTNESS] ++
           setAllEvents (Color 0 0 0) ++
           [Event.showStrip (List.replicate LED_COUNT (Color 0 0 0))
              DEFAULT_BRIGHTNESS,
            Event.digitalWrite true, Event.printNum 0]) := by
  have hskip : skipSpaces (c :: t) = c :: t := by
    simp [skipSpaces, hs]
  have hz : atoi (c :: t) = 0 := by
    simp only [atoi, hskip]
    rw [if_neg hm, if_neg hp]
    simp [atoiDigits, hd, wrap16]
  refine ⟨hz, ?_⟩
  unfold dispatch
  simp only [getArg,
    show (["color".data, c :: t, "0".data, "0".data].get? 0) =
      some "color".data from rfl,
    show (["color".data, c :: t, "0".data, "0".data].get? 1) =
      some (c :: t) from rfl,
    show (["color".data, c :: t, "0".data, "0".data].get? 2) =
      some "0".data from rfl,
    show (["color".data, c :: t, "0".data, "0".data].get? 3) =
      some "0".data from rfl,
    hz, show atoi "0".data = 0 from by decide]
  rw [if_neg (by decide), if_neg (by decide), if_pos (by trivial)]
  rw [if_neg (by decide), if_neg (by decide), if_neg (by decide)]
  rw [setAllPixels_replicate fw.strip.pixels (Color 0 0 0) hlen]
  rfl

/-- C1 amended witness: the concrete line `color x 0 0`. -/
theorem nonnumeric_token_parses_zero_witness :
    atoi "x".data = 0 ∧
    dispatch ["color".data, "x".data, "0".data, "0".data] initFW =
      Except.ok colorZeroResult := by
  have h := nonnumeric_token_parses_zero 'x' [] initFW
    (by decide) (by decide) (by decide) (by decide) (by decide)
  exact ⟨h.1, h.2⟩

/-- C8 counterexample: on the validation failure `blink 300 0 0 0 0` the
status line is printed while the busy indicator is still LOW (busy), the
return-to-idle write never happens, and the command ends with the
indicator LOW — refuting that the indicator is returned to idle
immediately before every status line. -/
theorem led_indicator_cex :
    process_command "blink 300 0 0 0 0".data initFW = Except.ok blinkBadResult ∧
    blinkBadResult.1.led_builtin = false ∧
    blinkBadResult.2 = [Event.digitalWrite false, Event.printNum 1] :=
  ⟨by decide, by decide, by decide⟩

set_option maxHeartbeats 2000000 in
/-- C8 amended: every processed line drives the indicator LOW (busy) as
its first action; for successful commands and unrecognized commands the
indicator is driven HIGH (idle) immediately before the single status
line; but on an argument-validation failure the status 1 line is emitted
with the indicator still LOW, and it stays LOW when the command
returns. -/
theorem led_indicator_behaviour (ts : List (List Char)) (fw : FW)
    (r : FW × List Event) (hok : dispatch ts fw = Except.ok r) :
    r.2.head? = some (Event.digitalWrite false) ∧
    (r.1.led_builtin = false →
      r.2 = [Event.digitalWrite false, Event.printNum 1]) ∧
    (r.1.led_builtin = true →
      ∃ s l, r.2 = l ++ [Event.digitalWrite true, Event.printNum s]) := by
  unfold dispatch at hok
  simp only [getArg] at hok
  repeat' split at hok
  all_goals try exact Except.noConfusion hok
  all_goals injection hok with hv
  all_goals subst hv
  all_goals refine ⟨rfl, fun hled => ?_, fun hled => ?_⟩
  all_goals
    first
      | exact Bool.noConfusion hled
      | rfl
      | exact ⟨1, [Event.digitalWrite false], rfl⟩
      | exact ⟨0, _, rfl⟩
      | exact ⟨0, _, append_triple_split _ _ _ _⟩

/-- C9 witness: the `blink` line with no arguments on the fresh state. -/
theorem missing_argument_null_token_witness :
    dispatch ["blink".data] initFW = Except.error CErr.nullToken :=
  (missing_argument_null_token initFW).1

set_option maxHeartbeats 2000000 in
/-- C6 amended: a `blink` line whose five tokens parse to valid values
r, g, b in [0,255], duration d ≥ 0 and repeats n with 1 ≤ n ≤ 16383 —
the range in which the 16-bit product `2 * repeats` does not overflow —
alternates the strip between black and the command color exactly n times
(the shown snapshots are black, color, …, black, color, followed by a
final black), every delay in the trace is the truncated quotient
d / (2·n) and there are exactly 2·n of them, the final state is all
pixels black with the default brightness and pulsing off, and the status
0 line is the last output. For n ≥ 16384 the product wraps negative on
the AVR and the half-cycle is d divided by the wrapped value instead
(see the counterexample). -/
theorem blink_trace (ts : List (List Char)) (fw : FW)
    (t1 t2 t3 t4 t5 : List Char) (r g b d n : Int)
    (h0 : ts.get? 0 = some "blink".data)
    (h1 : ts.get? 1 = some t1) (h2 : ts.get? 2 = some t2)
    (h3 : ts.get? 3 = some t3) (h4 : ts.get? 4 = some t4)
    (h5 : ts.get? 5 = some t5)
    (e1 : atoi t1 = r) (e2 : atoi t2 = g) (e3 : atoi t3 = b)
    (e4 : atoi t4 = d) (e5 : atoi t5 = n)
    (hr1 : 0 ≤ r) (hr2 : r ≤ 255) (hg1 : 0 ≤ g) (hg2 : g ≤ 255)
    (hb1 : 0 ≤ b) (hb2 : b ≤ 255) (hd1 : 0 ≤ d) (hn1 : 1 ≤ n)
    (hn2 : n ≤ 16383)
    (hlen : fw.strip.pixels.length = LED_COUNT) :
    ∃ res, dispatch ts fw = Except.ok res ∧
      statusOf res.2 = [0] ∧
      res.2.getLast? = some (Event.printNum 0) ∧
      showsOf res.2 =
        (List.replicate n.toNat
          [List.replicate LED_COUNT (Color 0 0 0),
           List.replicate LED_COUNT (Color r g b)]).flatten ++
          [List.replicate LED_COUNT (Color 0 0 0)] ∧
      delaysOf res.2 = List.replicate (2 * n.toNat) (d / (2 * n)) ∧
      res.1.strip.pixels = List.replicate LED_COUNT (Color 0 0 0) ∧
      res.1.strip.brightness = DEFAULT_BRIGHTNESS ∧
      res.1.is_pulsing = false := by
  have hw : wrap16 (2 * n) = 2 * n := by
    unfold wrap16
    omega
  have hnz : ¬(2 * n = 0) := by omega
  have hpr1 : (blinkLoop fw.strip.pixels (Color r g b) (Color 0 0 0)
      (d / (2 * n)) DEFAULT_BRIGHTNESS n.toNat).1.length = LED_COUNT :=
    length_blinkLoop_fst _ _ _ _ n.toNat fw.strip.pixels hlen
  have hpx3 : setAllPixels (blinkLoop fw.strip.pixels (Color r g b) (Color 0 0 0)
      (d / (2 * n)) DEFAULT_BRIGHTNESS n.toNat).1 (Color 0 0 0) =
      List.replicate LED_COUNT (Color 0 0 0) :=
    setAllPixels_replicate _ _ hpr1
  have heq : dispatch ts fw =
      Except.ok (blinkOkResult fw.strip.pixels fw.pulse_rising r g b
        (d / (2 * n)) n) := by
    unfold dispatch
    simp only [h0, getArg, h1, h2, h3, h4, h5, e1, e2, e3, e4, e5]
    rw [hw]
    rw [if_pos (by trivial)]
    rw [if_neg (by omega), if_neg (by omega), if_neg (by omega),
      if_neg (by omega), if_neg (by omega), if_neg hnz]
    rfl
  refine ⟨_, heq, ?_, ?_, ?_, ?_, ?_, ?_, ?_⟩
  · simp only [blinkOkResult, statusOf_append, statusOf_blinkLoop,
      statusOf_setAllEvents]
    simp [statusOf]
  · simp only [blinkOkResult]
    simp [List.getLast?_append, List.getLast?]
  · have hsb := showsOf_blinkLoop (Color r g b) (Color 0 0 0) (d / (2 * n))
      DEFAULT_BRIGHTNESS n.toNat fw.strip.pixels hlen
    simp only [blinkOkResult, showsOf_append, showsOf_setAllEvents, hsb, hpx3]
    simp [showsOf]
  · have hdl := delaysOf_blinkLoop (Color r g b) (Color 0 0 0) (d / (2 * n))
      DEFAULT_BRIGHTNESS n.toNat fw.strip.pixels
    simp only [blinkOkResult, delaysOf_append, delaysOf_setAllEvents, hdl]
    simp [delaysOf]
  · simp only [blinkOkResult]
    exact hpx3
  · rfl
  · rfl

/-- C6 witness: the concrete line `blink 255 0 0 1000 2` — exactly two
black/red cycles, half-cycle 250 ms, ends all black, status 0 last. -/
theorem blink_trace_witness :
    dispatch blinkDemoTokens initFW = Except.ok blinkDemoResult ∧
    statusOf blinkDemoResult.2 = [0] ∧
    blinkDemoResult.2.getLast? = some (Event.printNum 0) ∧
    showsOf blinkDemoResult.2 =
      [List.replicate LED_COUNT 0, List.replicate LED_COUNT 16711680,
       List.replicate LED_COUNT 0, List.replicate LED_COUNT 16711680,
       List.replicate LED_COUNT 0] ∧
    delaysOf blinkDemoResult.2 = List.replicate 4 250 ∧
    blinkDemoResult.1.strip.pixels = List.replicate LED_COUNT 0 := by
  obtain ⟨res, hok, hst, hlast, hsh, hdl, hpx, hbr, hpl⟩ :=
    blink_trace blinkDemoTokens initFW
      "255".data "0".data "0".data "1000".data "2".data
      255 0 0 1000 2
      (by decide) (by decide) (by decide) (by decide) (by decide) (by decide)
      (by decide) (by decide) (by decide) (by decide) (by decide)
      (by decide) (by decide) (by decide) (by decide) (by decide)
      (by decide) (by decide) (by decide) (by decide) (by decide)
  have hres : res = blinkDemoResult := by
    have h2 : (Except.ok res : Except CErr (FW × List Event)) =
        Except.ok blinkDemoResult := by
      rw [← hok]
      decide
    exact Except.ok.inj h2
  subst hres
  refine ⟨hok, hst, hlast, ?_, ?_, ?_⟩
  · rw [hsh]
    decide
  · rw [hdl]
    decide
  · rw [hpx]
    decide

/-- C6 counterexample: on `blink 0 0 0 1000 32767` (all arguments pass
validation) the AVR's 16-bit product `2 * 32767` wraps to −2, so the
firmware's half-cycle wait is `1000 / (−2) = −500` — every delay in the
trace is −500 ms — whereas the claim's formula `1000 / (2 * 32767)`
gives 0. The claimed half-cycle duration is therefore wrong for repeat
counts of 16384 and above. -/
theorem blink_wait_overflow_cex :
    process_command "blink 0 0 0 1000 32767".data initFW =
      Except.ok (blinkOkResult (List.replicate LED_COUNT 0) false
        0 0 0 (-500) 32767) ∧
    delaysOf (blinkOkResult (List.replicate LED_COUNT 0) false
        0 0 0 (-500) 32767).2 =
      List.replicate 65534 (-500) ∧
    (1000 : Int) / (2 * 32767) = 0 ∧
    (-500 : Int) ≠ 0 := by
  refine ⟨rfl, ?_, by decide, by decide⟩
  have hdl := delaysOf_blinkLoop (Color 0 0 0) (Color 0 0 0) (-500)
    DEFAULT_BRIGHTNESS ((32767 : Int).toNat) (List.replicate LED_COUNT 0)
  have hcount : 2 * (32767 : Int).toNat = 65534 := by decide
  simp only [blinkOkResult, delaysOf_append, delaysOf_setAllEvents, hdl, hcount,
    delaysOf_busyBright, delaysOf_tailTriple, List.append_nil, List.nil_append]

/-- C8 amended witness: the successful `pulse` command begins with the
busy write and its trace ends idle-write-then-status. -/
theorem led_indicator_behaviour_witness :
    dispatch ["pulse".data] initFW = Except.ok pulseOkResult ∧
    pulseOkResult.2.head? = some (Event.digitalWrite false) := by
  have hok : dispatch ["pulse".data] initFW = Except.ok pulseOkResult := by
    decide
  exact ⟨hok, (led_indicator_behaviour ["pulse".data] initFW pulseOkResult hok).1⟩

/-- Draining `xs ++ ys` is draining `xs`, then draining `ys` from the
state it leaves, with the traces concatenated. -/
theorem feedBytes_append_ok (xs : List Nat) :
    ∀ (s s1 : Sys) (e1 : List Event) (ys : List Nat),
      feedBytes s xs = Except.ok (s1, e1) →
      feedBytes s (xs ++ ys) =
        Except.map (fun r2 => (r2.1, e1 ++ r2.2)) (feedBytes s1 ys) := by
  induction xs with
  | nil =>
      intro s s1 e1 ys h
      simp only [feedBytes] at h
      injection h with h'
      obtain ⟨h1, h2⟩ := Prod.mk.injEq .. |>.mp h'
      subst h1
      subst h2
      simp only [List.nil_append]
      cases hys : feedBytes s ys with
      | error e => simp [Except.map]
      | ok r2 => simp [Except.map]
  | cons b rest ih =>
      intro s s1 e1 ys h
      simp only [feedBytes, List.cons_append] at h ⊢
      cases hfb : feedByte s b with
      | error e =>
          rw [hfb] at h
          exact Except.noConfusion h
      | ok r1 =>
          rw [hfb] at h
          obtain ⟨sa, ea⟩ := r1
          simp only at h ⊢
          cases hfr : feedBytes sa rest with
          | error e =>
              rw [hfr] at h
              exact Except.noConfusion h
          | ok r2 =>
              rw [hfr] at h
              obtain ⟨sb, eb⟩ := r2
              simp only at h
              injection h with hinj
              obtain ⟨hb1, hb2⟩ := Prod.mk.injEq .. |>.mp hinj
              subst hb1
              subst hb2
              simp only [List.append_eq]
              rw [ih sa sb eb ys hfr]
              cases hys : feedBytes sb ys with
              | error e => simp [Except.map]
              | ok r3 => simp [Except.map]

/-- Feeding data bytes (no NUL, no CR/LF) that exactly fill the buffer to
`MAX_INPUT_BUFFER_LEN` emits the overflow diagnostic once, clears the
buffer, and produces no other event — in particular the interpreter is
never invoked on those bytes. -/
theorem feedBytes_overflow (bs : List Nat) :
    ∀ s : Sys, (∀ x ∈ bs, x ≠ 0 ∧ x ≠ 13 ∧ x ≠ 10) →
      s.buffer.length + bs.length = MAX_INPUT_BUFFER_LEN →
      s.buffer.length < MAX_INPUT_BUFFER_LEN →
      feedBytes s bs =
        Except.ok ({ s with buffer := [] },
          [Event.printMsg "Input too long".data]) := by
  induction bs with
  | nil =>
      intro s _ hlen hlt
      simp only [List.length_nil, Nat.add_zero] at hlen
      omega
  | cons b rest ih =>
      intro s hd hlen hlt
      obtain ⟨hb0, hb13, hb10⟩ := hd b (List.mem_cons_self b rest)
      have hnotnl : ¬(b = 13 ∨ b = 10) := by
        rintro (h | h)
        · exact hb13 h
        · exact hb10 h
      by_cases hfull : MAX_INPUT_BUFFER_LEN ≤ (s.buffer ++ [Char.ofNat b]).length
      · have hrest : rest = [] := by
          rw [List.length_append] at hfull
          have hr0 : rest.length = 0 := by
            simp only [List.length_cons] at hlen
            simp only [List.length_singleton] at hfull
            simp only [MAX_INPUT_BUFFER_LEN] at *
            omega
          exact List.length_eq_zero.mp hr0
        subst hrest
        have hfb : feedByte s b =
            Except.ok ({ s with buffer := [] },
              [Event.printMsg "Input too long".data]) := by
          simp only [feedByte, if_neg hb0, if_neg hnotnl, if_pos hfull]
        simp [feedBytes, hfb]
      · have hfb : feedByte s b =
            Except.ok ({ s with buffer := s.buffer ++ [Char.ofNat b] }, []) := by
          simp only [feedByte, if_neg hb0, if_neg hnotnl, if_neg hfull]
        have hlen1 : ({ s with buffer := s.buffer ++ [Char.ofNat b] } : Sys).buffer.length
            + rest.length = MAX_INPUT_BUFFER_LEN := by
          simp only [List.length_append, List.length_singleton]
          simp only [List.length_cons] at hlen
          omega
        have hlt1 : ({ s with buffer := s.buffer ++ [Char.ofNat b] } : Sys).buffer.length
            < MAX_INPUT_BUFFER_LEN := by
          simp only [List.length_append, List.length_singleton]
          rw [List.length_append, List.length_singleton] at hfull
          omega
        have hrec := ih { s with buffer := s.buffer ++ [Char.ofNat b] }
          (fun x hx => hd x (List.mem_cons_of_mem b hx)) hlen1 hlt1
        simp [feedBytes, hfb, hrec]

set_option maxHeartbeats 1000000 in
/-- C2 amended: a line that reaches the maximum buffer length before any
terminator makes the firmware emit the over-length diagnostic at the
overflow point and discard the 127 buffered bytes without ever invoking
the Command Interpreter on them; but the bytes of the same line that
arrive *after* the overflow point start a fresh buffer and are handled as
a brand-new line — at the terminator the interpreter *is* invoked on that
tail and a status code for it is emitted. -/
theorem overflow_line_tail_processed (bs tail : List Nat)
    (hlen : bs.length = MAX_INPUT_BUFFER_LEN)
    (hd : ∀ x ∈ bs, x ≠ 0 ∧ x ≠ 13 ∧ x ≠ 10) :
    feedBytes initSys bs =
      Except.ok (initSys, [Event.printMsg "Input too long".data]) ∧
    feedBytes initSys (bs ++ tail) =
      Except.map
        (fun r => (r.1, Event.printMsg "Input too long".data :: r.2))
        (feedBytes initSys tail) := by
  have h1 := feedBytes_overflow bs initSys hd
    (by simpa [initSys] using hlen) (by simp [initSys, MAX_INPUT_BUFFER_LEN])
  have h1' : feedBytes initSys bs =
      Except.ok (initSys, [Event.printMsg "Input too long".data]) := h1
  refine ⟨h1', ?_⟩
  rw [feedBytes_append_ok bs initSys initSys
    [Event.printMsg "Input too long".data] tail h1']
  cases hys : feedBytes initSys tail with
  | error e => simp [Except.map]
  | ok r2 => simp [Except.map]

/-- C2 counterexample: 127 bytes of `a` followed by `pulse` and a newline
— all one over-length serial line. The diagnostic is emitted, but the
tail `pulse` of the same line *is* handed to the Command Interpreter,
which executes it (pulsing turns on) and emits status 0 — refuting "no
status code" and "never invokes the Command Interpreter with any content
of that line". -/
theorem overflow_tail_processed_cex :
    feedBytes initSys (List.replicate 127 97 ++ bytesOf "pulse" ++ [10]) =
      Except.ok ({ fw := pulsedFW, buffer := [] },
        [Event.printMsg "Input too long".data,
         Event.interpret "pulse".data,
         Event.digitalWrite false, Event.digitalWrite true,
         Event.printNum 0]) := by decide

set_option maxRecDepth 8192 in
/-- C2 amended witness: the 127-byte prefix alone, and the same prefix
followed by the tail line `pulse\n`. -/
theorem overflow_line_tail_processed_witness :
    feedBytes initSys (List.replicate 127 97) =
      Except.ok (initSys, [Event.printMsg "Input too long".data]) ∧
    feedBytes initSys (List.replicate 127 97 ++ bytesOf "pulse\n") =
      Except.ok ({ fw := pulsedFW, buffer := [] },
        [Event.printMsg "Input too long".data,
         Event.interpret "pulse".data,
         Event.digitalWrite false, Event.digitalWrite true,
         Event.printNum 0]) := by
  have h := overflow_line_tail_processed (List.replicate 127 97)
    (bytesOf "pulse\n") (by decide) (by decide)
  refine ⟨h.1, ?_⟩
  rw [h.2]
  decide

end NeoPixelFW
